import Mathlib

/-!
Verification of the shimmy supervisor (src/shimmy.c) against its
natural-language specification.

The C program is embedded shallowly: each relevant C function becomes an
executable Lean definition over explicit state.  Operating-system effects
(mkdir, fopen/fwrite, wait, kill, rmdir, sigaction, poll) are modelled by
explicit oracles or by traces of the actions the code emits, so that the
control flow and the decisions of the C code are reproduced exactly.
-/

namespace Shimmy

/-! ## Constants from the C program and the Linux ABI -/

def EXIT_SUCCESS : Nat := 0

def EXIT_FAILURE : Nat := 1

def SIGINT : Nat := 2

def SIGQUIT : Nat := 3

def SIGKILL : Nat := 9

def SIGTERM : Nat := 15

def SIGCHLD : Nat := 17

def POLLIN : Nat := 1

def POLLHUP : Nat := 16

def EEXIST : Nat := 17

def ENOENT : Nat := 2

def ENOTEMPTY : Nat := 39

/-! ## Wait-status decoding (sys/wait.h macros, as used at shimmy.c:489) -/

/-- WIFEXITED(status) is ((status & 0x7f) == 0). -/
def WIFEXITED (status : Nat) : Bool := status % 128 == 0

/-- WEXITSTATUS(status) is ((status >> 8) & 0xff). -/
def WEXITSTATUS (status : Nat) : Nat := (status / 256) % 256

/-- How a tracked child finished. -/
inductive ChildOutcome
  | exited (code : Nat)
  | signaled (sig : Nat)
deriving DecidableEq

/-- The kernel encoding of a wait status: a normal exit with code k is
(k & 0xff) << 8; a termination by signal s stores s in the low 7 bits. -/
def waitStatus : ChildOutcome → Nat
  | ChildOutcome.exited code => (code % 256) * 256
  | ChildOutcome.signaled sig => sig % 128

/-- shimmy.c:489, `WIFEXITED(status) ? WEXITSTATUS(status) : EXIT_FAILURE`. -/
def childExitStatus (status : Nat) : Nat :=
  if WIFEXITED status then WEXITSTATUS status else EXIT_FAILURE

/-! ## The poll(2) model (shimmy.c:452-466)

main builds an array of three pollfd entries: index 0 watches standard
input for POLLHUP, index 1 watches the signal-pipe read end for POLLIN,
index 2 watches standard output for POLLHUP.  It then calls
`poll(fds, 2, -1)`: the kernel fills in `revents` only for the first
`nfds` entries and leaves the rest of the array untouched. -/

structure Pollfd where
  fd : Int
  events : Nat
  revents : Nat
deriving DecidableEq

/-- The read end of the signal pipe; stdin is 0, stdout is 1, stderr is 2,
and `pipe` allocates the next free descriptors. -/
def signalPipeReadFd : Int := 3

/-- Which descriptors the kernel currently reports ready, as the revents
value it would deliver for each of the three descriptors of interest. -/
structure Readiness where
  stdinRevents : Nat
  stdoutRevents : Nat
  pipeRevents : Nat
deriving DecidableEq

def kernelRevents (r : Readiness) (fd : Int) : Nat :=
  if fd = 0 then r.stdinRevents
  else if fd = 1 then r.stdoutRevents
  else if fd = signalPipeReadFd then r.pipeRevents
  else 0

/-- The pollfd array exactly as main initialises it (shimmy.c:452-458).
`revents` is never initialised by the C code, so the initial values are
parameters (whatever happens to be on the stack). -/
def initFds (g0 g1 g2 : Nat) : List Pollfd :=
  [⟨0, POLLHUP, g0⟩, ⟨signalPipeReadFd, POLLIN, g1⟩, ⟨1, POLLHUP, g2⟩]

/-- The nfds argument main passes to poll at shimmy.c:461. -/
def NFDS_PASSED : Nat := 2

/-- One return from poll(fds, nfds, -1): the kernel stores the current
readiness into `revents` of the first `nfds` entries and leaves every
later entry exactly as it was. -/
def pollStep (r : Readiness) (nfds : Nat) (fds : List Pollfd) : List Pollfd :=
  (fds.enum).map (fun p => if p.1 < nfds then { p.2 with revents := kernelRevents r p.2.fd } else p.2)

/-! ## The supervision loop body (shimmy.c:460-509) -/

/-- Externally visible actions the loop body performs. -/
inductive Act
  | sendSignal (pid : Int) (sig : Nat)
  | sleepMicros (us : Nat)
  | exitProcess (code : Nat)
  | blockedInWait
  | continueLoop
  | fatalError
deriving DecidableEq

/-- shimmy.c:298-309: SIGTERM, then usleep(brutal_kill_wait_us) when the
delay is positive, then SIGKILL. -/
def kill_child_nicely (brutal_kill_wait_us : Nat) (child : Int) : List Act :=
  [Act.sendSignal child SIGTERM]
    ++ (if brutal_kill_wait_us > 0 then [Act.sleepMicros brutal_kill_wait_us] else [])
    ++ [Act.sendSignal child SIGKILL]

def reventsAt (fds : List Pollfd) (i : Nat) : Nat :=
  ((fds.get? i).map Pollfd.revents).getD 0

/-- The body of the for(;;) loop after poll has returned (shimmy.c:468-506),
as the list of actions it performs.

* `pipeSignal` is the integer that a read from the signal pipe would
  deliver when the pipe is readable.
* `zombies` are the already-terminated, not yet reaped processes, as
  (pid, wait status) pairs; `wait(&status)` (shimmy.c:487) reaps the first
  one, and blocks when there is none.

A stdio branch runs kill_child_nicely, breaks out of the loop, and falls
through to `exit(EXIT_SUCCESS)` at shimmy.c:509.  A SIGCHLD whose reaped
pid is not the tracked child leaves every piece of state unchanged and
re-enters the loop. -/
def loopBody (fds : List Pollfd) (pipeSignal : Nat) (zombies : List (Int × Nat))
    (child : Int) (brutal_kill_wait_us : Nat) : List Act :=
  if reventsAt fds 0 ≠ 0 then
    kill_child_nicely brutal_kill_wait_us child ++ [Act.exitProcess EXIT_SUCCESS]
  else if reventsAt fds 2 ≠ 0 then
    kill_child_nicely brutal_kill_wait_us child ++ [Act.exitProcess EXIT_SUCCESS]
  else if reventsAt fds 1 ≠ 0 then
    if pipeSignal = SIGCHLD then
      match zombies with
      | [] => [Act.blockedInWait]
      | (dying_pid, status) :: _ =>
        if dying_pid = child then [Act.exitProcess (childExitStatus status)]
        else [Act.continueLoop]
    else if pipeSignal = SIGTERM ∨ pipeSignal = SIGQUIT ∨ pipeSignal = SIGINT then
      [Act.exitProcess EXIT_FAILURE]
    else
      [Act.fatalError]
  else
    [Act.continueLoop]

/-- The post-poll pollfd array in the run where only the signal pipe is
ready (garbage revents taken to be 0). -/
def pipeReadyFds : List Pollfd :=
  pollStep { stdinRevents := 0, stdoutRevents := 0, pipeRevents := POLLIN } NFDS_PASSED (initFds 0 0 0)

/-! ## The child side of fork_exec (shimmy.c:88-118)

After fork, the child attaches itself to every cgroup
(move_pid_to_cgroups, which calls err(EXIT_FAILURE, ...) itself on any
fopen/fprintf failure), then calls setgid when run_as_gid > 0, then
setuid when run_as_uid > 0 (each followed by err(EXIT_FAILURE, ...) on
failure), then execvp; a failing execvp falls through to
exit(EXIT_FAILURE).  The oracle `ChildEnv` says which of those calls
succeed. -/

inductive ChildEvent
  | attach
  | setgidCall
  | setuidCall
  | execCall
deriving DecidableEq

structure ChildEnv where
  attachOk : Bool
  setgidOk : Bool
  setuidOk : Bool
  execOk : Bool
deriving DecidableEq

/-- The run of the child branch of fork_exec: the ordered list of calls
it attempts, and `some code` when the child process terminates itself
with exit status `code` (none means the process image was replaced by
execvp). -/
def fork_exec_child (run_as_gid run_as_uid : Nat) (env : ChildEnv) :
    List ChildEvent × Option Nat :=
  if env.attachOk = false then ([ChildEvent.attach], some EXIT_FAILURE)
  else
    let evs1 := [ChildEvent.attach]
    if 0 < run_as_gid ∧ env.setgidOk = false then
      (evs1 ++ [ChildEvent.setgidCall], some EXIT_FAILURE)
    else
      let evs2 := evs1 ++ (if 0 < run_as_gid then [ChildEvent.setgidCall] else [])
      if 0 < run_as_uid ∧ env.setuidOk = false then
        (evs2 ++ [ChildEvent.setuidCall], some EXIT_FAILURE)
      else
        let evs3 := evs2 ++ (if 0 < run_as_uid then [ChildEvent.setuidCall] else [])
        (evs3 ++ [ChildEvent.execCall], if env.execOk then none else some EXIT_FAILURE)

/-! ## Signal dispositions and sigaction (shimmy.c:260-268, 434-443)

POSIX sigaction(signum, act, oldact): when act is a null pointer the
disposition of the signal is left unchanged (the call only queries). -/

inductive Disposition
  | dfl
  | relayHandler
deriving DecidableEq

structure SigDispositions where
  chld : Disposition
  intr : Disposition
  quit : Disposition
  term : Disposition
deriving DecidableEq

/-- sigaction's effect on one signal's disposition: `none` models a NULL
act pointer (disposition unchanged), `some d` models installing d. -/
def sigactionUpdate (cur : Disposition) (act : Option Disposition) : Disposition :=
  match act with
  | none => cur
  | some d => d

/-- The dispositions right after main installs sigchild_handler for
SIGCHLD, SIGINT, SIGQUIT and SIGTERM (shimmy.c:440-443). -/
def installedDispositions : SigDispositions :=
  ⟨Disposition.relayHandler, Disposition.relayHandler, Disposition.relayHandler, Disposition.relayHandler⟩

/-- shimmy.c:265-268: the four `sigaction(SIG, NULL, NULL)` calls at the
top of cleanup. -/
def cleanupSignalStep (s : SigDispositions) : SigDispositions :=
  { chld := sigactionUpdate s.chld none
    intr := sigactionUpdate s.intr none
    quit := sigactionUpdate s.quit none
    term := sigactionUpdate s.term none }

/-! ## Membership files and the teardown kill loops (shimmy.c:208-296)

The cgroup filesystem during teardown is a list, one entry per
controller, of the contents of its membership file: `none` when the file
no longer exists (fopen fails), `some pids` when it holds `pids`. -/

structure CgroupState where
  procfiles : List (Option (List Int))
deriving DecidableEq

/-- shimmy.c:222-233: false when fopen fails, otherwise whether fscanf
finds a first pid. -/
def procfile_has_processes : Option (List Int) → Bool
  | none => false
  | some pids => !pids.isEmpty

/-- shimmy.c:208-220: no sends when fopen fails, otherwise one kill per
pid listed. -/
def procfile_killall (file : Option (List Int)) (sig : Nat) : List (Int × Nat) :=
  match file with
  | none => []
  | some pids => pids.map (fun p => (p, sig))

/-- shimmy.c:235-241. -/
def kill_children (s : CgroupState) (sig : Nat) : List (Int × Nat) :=
  (s.procfiles.map (fun f => procfile_killall f sig)).flatten

/-- shimmy.c:251-258. -/
def child_processes_exist (s : CgroupState) : Bool :=
  s.procfiles.any procfile_has_processes

/-- One `while (retries > 0 && child_processes_exist()) { kill_children(SIGKILL); ...; retries--; }`
loop over a cgroup state that does not change during the loop: returns
the remaining retries and the kill sends performed. -/
def killRetryLoop (s : CgroupState) : Nat → Nat × List (Int × Nat)
  | 0 => (0, [])
  | r + 1 =>
    if child_processes_exist s then
      let rest := killRetryLoop s r
      (rest.1, kill_children s SIGKILL ++ rest.2)
    else (r + 1, [])

/-- shimmy.c:273-290: the first 10-retry burst (with 1ms sleeps); when it
exhausts its retries, a second 10-retry burst without sleeping; when that
one exhausts too, warnx (non-fatal).  Returns the kill sends and whether
the warning was printed. -/
def cleanup_kill_phase (s : CgroupState) : List (Int × Nat) × Bool :=
  let first := killRetryLoop s 10
  if first.1 = 0 then
    let second := killRetryLoop s 10
    (first.2 ++ second.2, second.1 == 0)
  else
    (first.2, false)

/-- rmdir on a directory described by (exists, nonEmpty): `none` on
success, `some errno` on failure.  shimmy.c:204 ignores the result. -/
def rmdirCall : Bool × Bool → Option Nat
  | (true, false) => none
  | (true, true) => some ENOTEMPTY
  | (false, _) => some ENOENT

/-- shimmy.c:198-206: best-effort rmdir of every controller's leaf
directory; the return values are collected here only to show that
nothing inspects them. -/
def destroy_cgroups (dirs : List (Bool × Bool)) : List (Option Nat) :=
  dirs.map rmdirCall

structure CleanupTrace where
  sigs : SigDispositions
  kills : List (Int × Nat)
  warned : Bool
  rmdirResults : List (Option Nat)
deriving DecidableEq

/-- shimmy.c:260-296: the whole cleanup routine.  It prints at most a
warning, calls no err/errx/exit, and does not touch the exit status the
process is already exiting with. -/
def cleanup (sd : SigDispositions) (s : CgroupState) (dirs : List (Bool × Bool)) : CleanupTrace :=
  let phase := cleanup_kill_phase s
  { sigs := cleanupSignalStep sd
    kills := phase.1
    warned := phase.2
    rmdirResults := destroy_cgroups dirs }

/-! ## mkdir -p and cgroup directory creation (shimmy.c:120-159)

mkdir_p walks the path from `start_index`, and at every position holding
a '/' or the terminating NUL it calls mkdir on the prefix up to that
position.  `rc` is overwritten by every call, so the returned rc is that
of the last call (the full path); `last_errno` is the errno of the last
failing call, which is the final call's errno whenever the final call
failed.  The filesystem oracle maps a path to `none` (mkdir succeeds) or
`some errno` (mkdir fails). -/

def mkdirIndices (path : List Char) (start : Nat) : List Nat :=
  (List.range (path.length + 1)).filter
    (fun i => decide (start ≤ i) && (i == path.length || path.get? i == some '/'))

def mkdir_p (fs : List Char → Option Nat) (path : List Char) (start : Nat) : Int × Nat :=
  (mkdirIndices path start).foldl
    (fun acc i =>
      match fs (path.take i) with
      | none => (0, acc.2)
      | some e => (-1, e))
    (0, 0)

inductive CreateResult
  | ok
  | alreadyExists
  | cantCreate
deriving DecidableEq

/-- The body of create_cgroups for one controller (shimmy.c:151-157):
when mkdir_p fails, errno EEXIST gives the distinct "already exists"
errx, anything else the generic "Couldn't create" err. -/
def create_cgroup_dir (fs : List Char → Option Nat) (path : List Char) (start : Nat) : CreateResult :=
  let r := mkdir_p fs path start
  if r.1 < 0 then
    if r.2 = EEXIST then CreateResult.alreadyExists else CreateResult.cantCreate
  else CreateResult.ok

/-! ## write_file and setting updates (shimmy.c:161-185)

fopen may fail; fwrite returns the number of items actually written,
never a negative number.  `FileWriteEnv.fwriteCount` is the count fwrite
reports; the bytes that reach the file are the corresponding first bytes
of the value. -/

structure FileWriteEnv where
  fopenOk : Bool
  fwriteCount : Nat
deriving DecidableEq

/-- shimmy.c:161-170: returns the C return value together with the bytes
that reached the file.  fwrite is handed exactly strlen(value) bytes of
value — no newline is added or stripped. -/
def write_file (env : FileWriteEnv) (value : List Char) : Int × List Char :=
  if env.fopenOk = false then (-1, [])
  else (((min env.fwriteCount value.length : Nat) : Int), value.take env.fwriteCount)

/-- The body of update_cgroup_settings for one (key, value) pair
(shimmy.c:178-182): err(EXIT_FAILURE, ...) exactly when write_file
returns a negative value.  The first component is `some code` when the
run dies with exit status `code`. -/
def update_one_setting (env : FileWriteEnv) (value : List Char) : Option Nat × List Char :=
  let r := write_file env value
  if r.1 < 0 then (some EXIT_FAILURE, r.2) else (none, r.2)

/-! ## The controller store (shimmy.c:39-62, 311-330, 346-372)

add_controller pushes a fresh node on the front of the global
`controllers` list; add_controller_setting pushes a fresh (key, value)
node on the front of that controller's `vars` list; `current_controller`
always points at the head of `controllers`.  FOREACH_CONTROLLER walks
the list from its head. -/

structure CInfo where
  name : String
  vars : List (String × String)
deriving DecidableEq

/-- shimmy.c:311-321. -/
def add_controller (cs : List CInfo) (n : String) : List CInfo :=
  { name := n, vars := [] } :: cs

/-- shimmy.c:323-330. -/
def add_controller_setting (c : CInfo) (k v : String) : CInfo :=
  { c with vars := (k, v) :: c.vars }

/-- The two option-processing cases that touch the store: -c (case 'c',
shimmy.c:354-356) and -s (case 's', shimmy.c:358-372). -/
inductive Directive
  | ctrl (n : String)
  | setv (k v : String)
deriving DecidableEq

/-- One getopt iteration's effect on the store; `none` is the
errx(EXIT_FAILURE, "Specify a cgroup controller (-c) before setting a
variable") path. -/
def applyDirective (cs : List CInfo) : Directive → Option (List CInfo)
  | Directive.ctrl n => some (add_controller cs n)
  | Directive.setv k v =>
    match cs with
    | [] => none
    | c :: rest => some (add_controller_setting c k v :: rest)

def buildControllers : List CInfo → List Directive → Option (List CInfo)
  | cs, [] => some cs
  | cs, d :: ds =>
    match applyDirective cs d with
    | none => none
    | some cs2 => buildControllers cs2 ds

/-- The directive stream of a declaration sequence in which each
controller is followed by its own settings. -/
def directivesOf (decls : List (String × List (String × String))) : List Directive :=
  (decls.map (fun d => Directive.ctrl d.1 :: d.2.map (fun s => Directive.setv s.1 s.2))).flatten

/-! ## Theorems -/

/-- Helper: with only the signal pipe ready, the loop body goes to the
signal branch, and a SIGCHLD notification performs exactly one wait. -/
theorem loopBody_pipeReady_sigchld (zombies : List (Int × Nat)) (child : Int) (delay : Nat) :
    loopBody pipeReadyFds SIGCHLD zombies child delay =
      (match zombies with
       | [] => [Act.blockedInWait]
       | (p, st) :: _ =>
         if p = child then [Act.exitProcess (childExitStatus st)] else [Act.continueLoop]) := by
  have h0 : reventsAt pipeReadyFds 0 = 0 := by decide
  have h1 : reventsAt pipeReadyFds 1 = POLLIN := by decide
  have h2 : reventsAt pipeReadyFds 2 = 0 := by decide
  simp [loopBody, h0, h1, h2, POLLIN]

/-- Helper: a child that exited normally with code k (k ≤ 255) yields the
supervisor exit status k. -/
theorem childExitStatus_exited (k : Nat) (hk : k ≤ 255) :
    childExitStatus (waitStatus (ChildOutcome.exited k)) = k := by
  have hk2 : k % 256 = k := Nat.mod_eq_of_lt (by omega)
  have h1 : (k * 256) % 128 = 0 := by omega
  have h2 : (k * 256) / 256 % 256 = k := by omega
  simp [childExitStatus, waitStatus, WIFEXITED, WEXITSTATUS, hk2, h1, h2]

/-- Helper: a child terminated by signal s (0 < s < 127) yields the
supervisor exit status EXIT_FAILURE. -/
theorem childExitStatus_signaled (s : Nat) (hs1 : 0 < s) (hs2 : s < 127) :
    childExitStatus (waitStatus (ChildOutcome.signaled s)) = EXIT_FAILURE := by
  have hs3 : s % 128 = s := Nat.mod_eq_of_lt (by omega)
  have h1 : ¬ (s % 128 = 0) := by omega
  have h0 : ¬ (s = 0) := by omega
  simp [childExitStatus, waitStatus, WIFEXITED, hs3, h1, h0]

/-- C1 (code_bug): main sets up three pollfd entries — stdin (index 0),
the signal-pipe read end (index 1) and stdout (index 2) — but calls
`poll(fds, 2, -1)`, so the kernel never examines or fills in the stdout
entry.  Concretely, with stdout hung up and nothing else ready, poll
leaves the array exactly as it was, the stdout entry's revents stays 0,
and the loop body takes no stdio action, whereas the same poll with
nfds = 3 would have reported POLLHUP on the stdout entry.  The claim
that the multiplexed wait observes all three readiness sources is
therefore false of the code. -/
theorem C1_stdout_hangup_not_observed :
    NFDS_PASSED = 2 ∧ (initFds 0 0 0).length = 3 ∧
    pollStep { stdinRevents := 0, stdoutRevents := POLLHUP, pipeRevents := 0 } NFDS_PASSED
        (initFds 0 0 0) = initFds 0 0 0 ∧
    reventsAt (pollStep { stdinRevents := 0, stdoutRevents := POLLHUP, pipeRevents := 0 }
        NFDS_PASSED (initFds 0 0 0)) 2 = 0 ∧
    loopBody (pollStep { stdinRevents := 0, stdoutRevents := POLLHUP, pipeRevents := 0 }
        NFDS_PASSED (initFds 0 0 0)) SIGCHLD [] 100 1000 = [Act.continueLoop] ∧
    reventsAt (pollStep { stdinRevents := 0, stdoutRevents := POLLHUP, pipeRevents := 0 } 3
        (initFds 0 0 0)) 2 = POLLHUP := by decide

/-- C2 (counterexample): with stdin hung up, the loop body sends SIGTERM,
sleeps the configured delay, sends SIGKILL — and then exits with
EXIT_SUCCESS (0), not with a fixed non-zero failure code: the break at
shimmy.c:471 falls through to `exit(EXIT_SUCCESS)` at shimmy.c:509. -/
theorem C2_exit_code_counterexample :
    loopBody (pollStep { stdinRevents := POLLHUP, stdoutRevents := 0, pipeRevents := 0 }
        NFDS_PASSED (initFds 0 0 0)) 0 [] 100 1000 =
      [Act.sendSignal 100 SIGTERM, Act.sleepMicros 1000, Act.sendSignal 100 SIGKILL,
       Act.exitProcess EXIT_SUCCESS] ∧
    EXIT_SUCCESS = 0 := by decide

/-- C2 (amended): whenever a stdio-hangup branch of the loop body fires
(stdin's revents, or the stdout entry's revents, is non-zero) and the
sigkill delay is positive, the supervisor sends SIGTERM to the child,
waits the configured delay, sends SIGKILL, and exits with the success
status 0 — not with the generic failure status. -/
theorem C2_stdio_hangup_kill_sequence (fds : List Pollfd) (pipeSignal : Nat)
    (zombies : List (Int × Nat)) (child : Int) (delay : Nat)
    (hhup : reventsAt fds 0 ≠ 0 ∨ reventsAt fds 2 ≠ 0) (hdelay : 0 < delay) :
    loopBody fds pipeSignal zombies child delay =
      [Act.sendSignal child SIGTERM, Act.sleepMicros delay, Act.sendSignal child SIGKILL,
       Act.exitProcess EXIT_SUCCESS] := by
  have hkill : kill_child_nicely delay child =
      [Act.sendSignal child SIGTERM, Act.sleepMicros delay, Act.sendSignal child SIGKILL] := by
    simp [kill_child_nicely, hdelay]
  by_cases h0 : reventsAt fds 0 ≠ 0
  · simp [loopBody, h0, hkill]
  · have h2 : reventsAt fds 2 ≠ 0 := hhup.resolve_left h0
    simp [loopBody, h0, h2, hkill]

/-- C2 (witness): the amended theorem at the concrete stdin-hangup run. -/
theorem C2_witness :
    loopBody (pollStep { stdinRevents := POLLHUP, stdoutRevents := 0, pipeRevents := 0 }
        NFDS_PASSED (initFds 0 0 0)) 0 [] 100 1000 =
      [Act.sendSignal 100 SIGTERM, Act.sleepMicros 1000, Act.sendSignal 100 SIGKILL,
       Act.exitProcess EXIT_SUCCESS] :=
  C2_stdio_hangup_kill_sequence _ 0 [] 100 1000 (Or.inl (by decide)) (by decide)

/-- C3: when the signal relay delivers SIGCHLD and the reaped process is
the tracked child, a normal exit with code k (k ≤ 255) makes the
supervisor exit with code k, while termination by a signal s makes it
exit with EXIT_FAILURE, never with a code derived from s. -/
theorem C3_child_outcome_to_exit_code (k s : Nat) (child : Int) (delay : Nat)
    (zs : List (Int × Nat)) (hk : k ≤ 255) (hs1 : 0 < s) (hs2 : s < 127) :
    loopBody pipeReadyFds SIGCHLD ((child, waitStatus (ChildOutcome.exited k)) :: zs) child delay
      = [Act.exitProcess k] ∧
    loopBody pipeReadyFds SIGCHLD ((child, waitStatus (ChildOutcome.signaled s)) :: zs) child delay
      = [Act.exitProcess EXIT_FAILURE] := by
  constructor
  · rw [loopBody_pipeReady_sigchld]
    simp [childExitStatus_exited k hk]
  · rw [loopBody_pipeReady_sigchld]
    simp [childExitStatus_signaled s hs1 hs2]

/-- C3 (witness): the theorem at k = 7, s = 9, child pid 100. -/
theorem C3_witness :
    loopBody pipeReadyFds SIGCHLD [((100 : Int), waitStatus (ChildOutcome.exited 7))] 100 0
      = [Act.exitProcess 7] ∧
    loopBody pipeReadyFds SIGCHLD [((100 : Int), waitStatus (ChildOutcome.signaled 9))] 100 0
      = [Act.exitProcess EXIT_FAILURE] :=
  C3_child_outcome_to_exit_code 7 9 100 0 [] (by decide) (by decide) (by decide)

/-- C4: in the spawned child with both a target gid and a target uid
configured, the successful run performs cgroup attachment, then setgid,
then setuid, then exec, in exactly that order; and a failure of
attachment, of setgid, or of setuid makes the child exit with
EXIT_FAILURE without the exec call ever appearing in its run. -/
theorem C4_privilege_drop_order (run_as_gid run_as_uid : Nat) (env : ChildEnv)
    (hg : 0 < run_as_gid) (hu : 0 < run_as_uid) :
    (env.attachOk = true → env.setgidOk = true → env.setuidOk = true →
      (fork_exec_child run_as_gid run_as_uid env).1 =
        [ChildEvent.attach, ChildEvent.setgidCall, ChildEvent.setuidCall, ChildEvent.execCall]) ∧
    (env.attachOk = false →
      fork_exec_child run_as_gid run_as_uid env = ([ChildEvent.attach], some EXIT_FAILURE) ∧
      ChildEvent.execCall ∉ (fork_exec_child run_as_gid run_as_uid env).1) ∧
    (env.attachOk = true → env.setgidOk = false →
      fork_exec_child run_as_gid run_as_uid env =
        ([ChildEvent.attach, ChildEvent.setgidCall], some EXIT_FAILURE) ∧
      ChildEvent.execCall ∉ (fork_exec_child run_as_gid run_as_uid env).1) ∧
    (env.attachOk = true → env.setgidOk = true → env.setuidOk = false →
      fork_exec_child run_as_gid run_as_uid env =
        ([ChildEvent.attach, ChildEvent.setgidCall, ChildEvent.setuidCall], some EXIT_FAILURE) ∧
      ChildEvent.execCall ∉ (fork_exec_child run_as_gid run_as_uid env).1) := by
  obtain ⟨a, g, u, e⟩ := env
  cases a <;> cases g <;> cases u <;> cases e <;>
    simp [fork_exec_child, hg, hu]

/-- C4 (witness): the theorem at gid 1000, uid 1000, with every call
succeeding: the child's run is attach, setgid, setuid, exec. -/
theorem C4_witness :
    (fork_exec_child 1000 1000 ⟨true, true, true, true⟩).1 =
      [ChildEvent.attach, ChildEvent.setgidCall, ChildEvent.setuidCall, ChildEvent.execCall] :=
  (C4_privilege_drop_order 1000 1000 ⟨true, true, true, true⟩ (by decide) (by decide)).1 rfl rfl rfl

/-- C5 (code_bug): cleanup's four `sigaction(SIG, NULL, NULL)` calls pass
a NULL action, which under POSIX only queries and leaves each
disposition unchanged — so after the "Turn off signal handlers" step of
cleanup the four dispositions are still the relay handler, not the
defaults, and a later delivery of one of the four signals still runs the
relay-write handler. -/
theorem C5_cleanup_does_not_restore_defaults :
    (cleanup installedDispositions ⟨[]⟩ []).sigs = installedDispositions ∧
    (cleanup installedDispositions ⟨[]⟩ []).sigs ≠
      ⟨Disposition.dfl, Disposition.dfl, Disposition.dfl, Disposition.dfl⟩ ∧
    (cleanup installedDispositions ⟨[]⟩ []).sigs.chld = Disposition.relayHandler := by decide

/-- Helper: the index list mkdir_p walks always ends with the full
path's position. -/
theorem mkdirIndices_eq_concat (path : List Char) (start : Nat) (h : start ≤ path.length) :
    mkdirIndices path start =
      (List.range path.length).filter
        (fun i => decide (start ≤ i) && (i == path.length || path.get? i == some '/'))
        ++ [path.length] := by
  unfold mkdirIndices
  rw [List.range_succ, List.filter_append]
  simp [h]

/-- C6: the outcome of cgroup directory creation for one controller is
decided by the final mkdir alone: whatever the oracle answers for the
intermediate prefixes, success of the final mkdir gives success,
failure with EEXIST gives the distinct "already exists" error, and any
other failure gives the generic "Couldn't create" error. -/
theorem C6_final_mkdir_decides (fs : List Char → Option Nat) (path : List Char) (start : Nat)
    (h : start ≤ path.length) :
    create_cgroup_dir fs path start =
      match fs path with
      | none => CreateResult.ok
      | some e => if e = EEXIST then CreateResult.alreadyExists else CreateResult.cantCreate := by
  unfold create_cgroup_dir mkdir_p
  rw [mkdirIndices_eq_concat path start h, List.foldl_append]
  simp only [List.foldl_cons, List.foldl_nil, List.take_length]
  cases hfs : fs path <;> simp [hfs]

/-- C6 (witness): on the path "a/b" with start index 0, an oracle that
fails the intermediate mkdir of "a" with EACCES but lets the final mkdir
succeed still yields success. -/
theorem C6_witness :
    create_cgroup_dir (fun p => if p = ['a'] then some 13 else none) ['a', '/', 'b'] 0 =
      CreateResult.ok := by
  have h := C6_final_mkdir_decides (fun p => if p = ['a'] then some 13 else none)
    ['a', '/', 'b'] 0 (by decide)
  rw [h]
  decide

/-- C7 (counterexample): with the file opened successfully but fwrite
writing 0 of the requested items (a completely failed write), write_file
returns 0, the `< 0` check does not fire, and the run proceeds — so a
failure of the write that is not a failure to open is NOT fatal,
contradicting the claim. -/
theorem C7_short_write_not_fatal_counterexample :
    (update_one_setting ⟨true, 0⟩ ['1']).1 = none ∧
    (update_one_setting ⟨true, 0⟩ ['1']).2 = [] ∧
    (['1'] : List Char) ≠ [] := by decide

/-- C7 (amended): the value is handed to fwrite verbatim — on a full
write the file holds exactly the value, with no newline added or
stripped — and failure to open the file is fatal; but fwrite reports a
non-negative count, so a failed or short write is not detected and is
not fatal. -/
theorem C7_verbatim_and_open_failure_fatal (env : FileWriteEnv) (value : List Char) :
    (env.fopenOk = false → update_one_setting env value = (some EXIT_FAILURE, [])) ∧
    (env.fopenOk = true →
      (update_one_setting env value).1 = none ∧
      (update_one_setting env value).2 = value.take env.fwriteCount) ∧
    (env.fopenOk = true → value.length ≤ env.fwriteCount →
      (update_one_setting env value).2 = value) := by
  obtain ⟨o, c⟩ := env
  have hok : ∀ cc : Nat, update_one_setting ⟨true, cc⟩ value = (none, value.take cc) := by
    intro cc
    have h : ¬ (((min cc value.length : Nat) : Int) < 0) := Int.not_lt.mpr (Int.natCast_nonneg _)
    simp [update_one_setting, write_file, h]
  cases o
  · simp [update_one_setting, write_file]
  · refine ⟨by simp, ?_, ?_⟩
    · intro _
      simp [hok c]
    · intro _ hlen
      simp only at hlen
      simp [hok c, List.take_of_length_le hlen]

/-- C7 (witness): the amended theorem at a successful full write of the
three-byte value "100": the file holds exactly those bytes. -/
theorem C7_witness :
    (update_one_setting ⟨true, 3⟩ ['1', '0', '0']).2 = ['1', '0', '0'] :=
  (C7_verbatim_and_open_failure_fatal ⟨true, 3⟩ ['1', '0', '0']).2.2 rfl (by decide)

/-- C8 (counterexample): when the relay delivers SIGCHLD but no
terminated process is available to reap (e.g. the SIGCHLD was delivered
because the child stopped, or the termination was already reaped), the
`wait(&status)` call at shimmy.c:487 blocks — the reap is not
non-blocking. -/
theorem C8_wait_blocks_counterexample :
    loopBody pipeReadyFds SIGCHLD [] 100 1000 = [Act.blockedInWait] := by decide

/-- C8 (amended): on a SIGCHLD notification the loop body performs
exactly one reap via a blocking wait: with no finished process the wait
blocks; the result of the notification is decided by the first finished
process alone (one reap per notification); a reaped pid different from
the tracked child leaves the loop supervising with no other effect,
and only a reap of the tracked child leads to the exit path. -/
theorem C8_one_reap_per_notification (child p : Int) (st : Nat)
    (rest : List (Int × Nat)) (delay : Nat) :
    loopBody pipeReadyFds SIGCHLD [] child delay = [Act.blockedInWait] ∧
    loopBody pipeReadyFds SIGCHLD ((p, st) :: rest) child delay =
      (if p = child then [Act.exitProcess (childExitStatus st)] else [Act.continueLoop]) ∧
    loopBody pipeReadyFds SIGCHLD ((p, st) :: rest) child delay =
      loopBody pipeReadyFds SIGCHLD [(p, st)] child delay := by
  refine ⟨loopBody_pipeReady_sigchld [] child delay, ?_, ?_⟩
  · rw [loopBody_pipeReady_sigchld]
  · rw [loopBody_pipeReady_sigchld, loopBody_pipeReady_sigchld]

/-- Helper: when every membership file is absent, no controller reports
live processes. -/
theorem child_processes_exist_of_all_none (s : CgroupState)
    (h : ∀ f ∈ s.procfiles, f = none) : child_processes_exist s = false := by
  simp only [child_processes_exist, List.any_eq_false]
  intro f hf
  rw [h f hf]
  simp [procfile_has_processes]

/-- Helper: the retry loop does nothing when no processes exist. -/
theorem killRetryLoop_no_processes (s : CgroupState) (h : child_processes_exist s = false) :
    ∀ r : Nat, 0 < r → killRetryLoop s r = (r, []) := by
  intro r hr
  cases r with
  | zero => omega
  | succ n => simp [killRetryLoop, h]

/-- C9: teardown never fails the process and is idempotent: when every
membership file is already absent (as after a completed first teardown),
the kill phase sends no signals and prints no warning — an absent file
counts as "no members"; and for any cgroup state at all, the kills and
the warning flag are unchanged whichever way the rmdir calls fail, i.e.
directory-removal failures are swallowed. -/
theorem C9_teardown_idempotent (sd : SigDispositions) (s : CgroupState)
    (dirs : List (Bool × Bool)) (h : ∀ f ∈ s.procfiles, f = none) :
    (cleanup sd s dirs).kills = [] ∧
    (cleanup sd s dirs).warned = false ∧
    (∀ (t : CgroupState) (d d2 : List (Bool × Bool)),
      (cleanup sd t d).kills = (cleanup sd t d2).kills ∧
      (cleanup sd t d).warned = (cleanup sd t d2).warned) := by
  have hex := child_processes_exist_of_all_none s h
  have hloop := killRetryLoop_no_processes s hex 10 (by omega)
  refine ⟨?_, ?_, ?_⟩
  · simp [cleanup, cleanup_kill_phase, hloop]
  · simp [cleanup, cleanup_kill_phase, hloop]
  · intro t d d2
    exact ⟨rfl, rfl⟩

/-- C9 (witness): the theorem on a two-controller state whose membership
files are both gone. -/
theorem C9_witness :
    (cleanup installedDispositions ⟨[none, none]⟩ [(false, false)]).kills = [] ∧
    (cleanup installedDispositions ⟨[none, none]⟩ [(false, false)]).warned = false := by
  have h := C9_teardown_idempotent installedDispositions ⟨[none, none]⟩ [(false, false)]
    (by intro f hf; simpa using hf)
  exact ⟨h.1, h.2.1⟩

/-- Helper: feeding a controller's settings one by one folds them, in
reverse, onto the head controller's vars list. -/
theorem buildControllers_setvs (ss : List (String × String)) :
    ∀ (c : CInfo) (cs : List CInfo) (ds : List Directive),
      buildControllers (c :: cs) (ss.map (fun s => Directive.setv s.1 s.2) ++ ds) =
        buildControllers ({ c with vars := ss.reverse ++ c.vars } :: cs) ds := by
  induction ss with
  | nil => intro c cs ds; simp
  | cons s ss ih =>
    intro c cs ds
    simp only [List.map_cons, List.cons_append, buildControllers, applyDirective,
      add_controller_setting, List.append_eq]
    rw [ih]
    simp [List.append_assoc]

/-- Helper: building the store from a declaration sequence prepends each
controller, with its settings reversed, in front of the accumulator. -/
theorem buildControllers_directivesOf (decls : List (String × List (String × String))) :
    ∀ acc : List CInfo,
      buildControllers acc (directivesOf decls) =
        some (((decls.map (fun d => CInfo.mk d.1 d.2.reverse)).reverse) ++ acc) := by
  induction decls with
  | nil => intro acc; simp [directivesOf, buildControllers]
  | cons d rest ih =>
    intro acc
    have hdir : directivesOf (d :: rest) =
        Directive.ctrl d.1 :: (d.2.map (fun s => Directive.setv s.1 s.2) ++ directivesOf rest) := by
      simp [directivesOf]
    rw [hdir]
    simp only [buildControllers, applyDirective, add_controller]
    rw [buildControllers_setvs d.2 ⟨d.1, []⟩ acc (directivesOf rest)]
    simp only [List.append_nil]
    rw [ih]
    simp [List.append_assoc]

/-- C10: processing the controller and setting declarations through
add_controller and add_controller_setting produces, because both prepend
to singly-linked lists, a store holding the controllers in reverse
declaration order with each controller's (key, value) settings in
reverse declaration order — so every FOREACH_CONTROLLER walk (directory
creation, setting writes, pid attachment, member killing, directory
removal) visits them in those reversed orders. -/
theorem C10_store_reverse_declaration_order (decls : List (String × List (String × String))) :
    buildControllers [] (directivesOf decls) =
      some ((decls.map (fun d => CInfo.mk d.1 d.2.reverse)).reverse) ∧
    ((decls.map (fun d => CInfo.mk d.1 d.2.reverse)).reverse).map CInfo.name =
      (decls.map Prod.fst).reverse := by
  constructor
  · simpa using buildControllers_directivesOf decls []
  · simp [List.map_reverse, List.map_map, Function.comp]

end Shimmy
